import Mathlib

/-
Verification of the PureBlog dispatch + ORM core (www/orm.py, www/web_frame.py,
www/app.py) against its specification.

The Python code is shallowly embedded: Python dicts become ordered association
lists (insertion order preserved, first-match lookup, in-place update on key
collision, exactly the CPython dict semantics the code relies on); Python
`None`/ints/strings/bools become the `Value` type; exceptions become `Except`;
the stateful parts (cursor/connection actions, in-place list mutation in
`findAll`, attribute caching in `getValueOrDefault`) become explicit state
passing, with the sequence of driver calls recorded as a trace.
-/

namespace PureBlog

/-- Python runtime values as they occur in Model instances, SQL argument lists
and parsed request bodies. `vNone` is Python `None`; `vReq` stands for the
aiohttp request object injected by the dispatcher. -/
inductive Value where
  | vNone
  | vInt (n : Int)
  | vStr (s : String)
  | vBool (b : Bool)
  | vReq
  deriving DecidableEq

/-- Python `sep.join(xs)`: empty string on `[]`, otherwise the elements
interleaved with `sep`. -/
def pyJoin (sep : String) : List String → String
  | [] => ""
  | [x] => x
  | x :: y :: rest => x ++ sep ++ pyJoin sep (y :: rest)

/-- Lookup in a Python dict modelled as an ordered association list
(first match wins; a dict never holds a key twice). -/
def alookup {α : Type} : List (String × α) → String → Option α
  | [], _ => none
  | (k, v) :: rest, key => if k = key then some v else alookup rest key

/-- Python `d[k] = v` on a dict: overwrite in place if the key exists
(preserving its position), append otherwise. -/
def dictInsert {α : Type} : List (String × α) → String → α → List (String × α)
  | [], k, v => [(k, v)]
  | (k0, v0) :: rest, k, v =>
    if k0 = k then (k0, v) :: rest else (k0, v0) :: dictInsert rest k v

/- ===================== orm.py : Field descriptors ===================== -/

/-- orm.py `Field.__init__`: column descriptor. `name = none` is Python
`name=None`; `default = none` is Python `default=None`, which the code treats
as "no declared default" (`if field.default is not None`). A callable default
is represented by the value it generates. -/
structure Field where
  name : Option String
  column_type : String
  primary_key : Bool
  default : Option Value
  deriving DecidableEq

/-- orm.py `StringField.__init__` with its default `ddl='varchar(100)'`. -/
def StringField (name : Option String) (primary_key : Bool) (default : Option Value) : Field :=
  { name := name, column_type := "varchar(100)", primary_key := primary_key, default := default }

/-- orm.py `BooleanField.__init__`: never a primary key. -/
def BooleanField (name : Option String) (default : Option Value) : Field :=
  { name := name, column_type := "boolean", primary_key := false, default := default }

/-- orm.py `IntegerField.__init__` (column type tag `biginit` sic). -/
def IntegerField (name : Option String) (primary_key : Bool) (default : Option Value) : Field :=
  { name := name, column_type := "biginit", primary_key := primary_key, default := default }

/- ===================== orm.py : ModelMetaclass.__new__ ===================== -/

/-- The input of schema derivation: a Model subclass declaration. `name` is the
class name, `tableAttr` the optional `__table__` attribute, `attrs` the
Field-valued class attributes in declaration order (CPython class bodies are
ordered dicts; non-Field attributes are skipped by the `isinstance(v, Field)`
test and are irrelevant here). -/
structure ClassDecl where
  name : String
  tableAttr : Option String
  attrs : List (String × Field)
  deriving DecidableEq

/-- Python truthiness of the `primaryKey` loop variable (`if primaryKey:`):
`None` and the empty string are falsy. -/
def pkTruthy : Option String → Bool
  | none => false
  | some s => if s = "" then false else true

/-- Python `attrs.get('__table__', None) or name`. -/
def pyOr : Option String → String → String
  | none, d => d
  | some s, d => if s = "" then d else s

/-- The field-scanning loop of `ModelMetaclass.__new__` (orm.py lines 104-115):
walks the declared attributes in order, collecting non-key field names and the
primary key, raising `RuntimeError('Duplicate primary key …')` when a second
truthy primary key is seen. -/
def scanFields : List (String × Field) → Option String → List String →
    Except String (Option String × List String)
  | [], pk, fields => .ok (pk, fields)
  | (k, v) :: rest, pk, fields =>
    if v.primary_key then
      if pkTruthy pk then .error ("Duplicate primary key for field: " ++ k)
      else scanFields rest (some k) fields
    else scanFields rest pk (fields ++ [k])

/-- orm.py `create_args_string`: `num` placeholders joined by `', '`. -/
def create_args_string (num : Nat) : String :=
  pyJoin ", " (List.replicate num "?")

/-- Backquote-escape a column name (orm.py line 125). -/
def escapeField (f : String) : String := "`" ++ f ++ "`"

/-- orm.py line 143: `mappings.get(f).name or f` — the explicit column name of
a field if truthy, the attribute name otherwise. (For `f` drawn from the same
attribute dict the lookup always succeeds; the fallback branch of a failed
lookup is unreachable.) -/
def colName (mappings : List (String × Field)) (f : String) : String :=
  match alookup mappings f with
  | some fld =>
    match fld.name with
    | some s => if s = "" then f else s
    | none => f
  | none => f

/-- The derived entity schema: the special attributes `__table__`,
`__primary_key__`, `__fields__`, `__mappings__` and the four statement
templates that `ModelMetaclass.__new__` installs. -/
structure Schema where
  table : String
  primaryKey : String
  fields : List String
  mappings : List (String × Field)
  select : String
  update : String
  delete : String
  insert : String
  deriving DecidableEq

/-- The schema value built at orm.py lines 125-149 from a table name, primary
key, non-key field list and mappings. -/
def mkSchema (tableName pk : String) (fields : List String)
    (mappings : List (String × Field)) : Schema :=
  { table := tableName
    primaryKey := pk
    fields := fields
    mappings := mappings
    select := "select `" ++ pk ++ "`," ++ pyJoin "," (fields.map escapeField)
      ++ " from `" ++ tableName ++ "`"
    update := "update `" ++ tableName ++ "` set "
      ++ pyJoin ", " (fields.map (fun f => "`" ++ colName mappings f ++ "`=?"))
      ++ " where `" ++ pk ++ "`=?"
    delete := "delete from `" ++ tableName ++ "` where `" ++ pk ++ "`=?"
    insert := "insert into `" ++ tableName ++ "` ("
      ++ pyJoin ", " (fields.map escapeField) ++ ", `" ++ pk ++ "`) values ("
      ++ create_args_string (fields.length + 1) ++ ")" }

/-- orm.py `ModelMetaclass.__new__` for a proper Model subclass: scan the
declared fields, fail with `RuntimeError` (a fatal, class-definition-time
error raised during module import, so it aborts startup) on a duplicate or
missing primary key, otherwise install the schema. The `pk = ""` test is the
Python truthiness of `if not primaryKey:`. -/
def ModelMetaclass_new (decl : ClassDecl) : Except String Schema :=
  match scanFields decl.attrs none [] with
  | .error e => .error e
  | .ok (none, _) => .error "Priamry key not found."
  | .ok (some pk, fields) =>
    if pk = "" then .error "Priamry key not found."
    else .ok (mkSchema (pyOr decl.tableAttr decl.name) pk fields decl.attrs)

/- ===================== orm.py : Model instance operations ===================== -/

/-- A Model instance: the dict a Model subclasses, mapping attribute names to
values. -/
abbrev Inst := List (String × Value)

/-- orm.py `Model.getValue`: `getattr(self, key, None)` — the stored value if
the key is present, Python `None` otherwise. Never consults field defaults. -/
def getValue (inst : Inst) (key : String) : Value :=
  match alookup inst key with
  | some v => v
  | none => .vNone

/-- orm.py `Model.getValueOrDefault`: like `getValue`, but when the result is
`None` and the field declares a default, the default (calling it if callable)
is returned and cached on the instance via `setattr`. Returns the value
together with the possibly-updated instance. (The source indexes
`self.__mappings__[key]`, which exists for every key `save` passes in; the
failed-lookup fallback is unreachable there.) -/
def getValueOrDefault (mappings : List (String × Field)) (inst : Inst) (key : String) :
    Value × Inst :=
  let value := getValue inst key
  if value = .vNone then
    match alookup mappings key with
    | some fld =>
      match fld.default with
      | some d => (d, dictInsert inst key d)
      | none => (.vNone, inst)
    | none => (.vNone, inst)
  else (value, inst)

/-- The value `getValueOrDefault` resolves for a key (ignoring the caching
side effect). -/
def resolveDefault (mappings : List (String × Field)) (inst : Inst) (key : String) : Value :=
  (getValueOrDefault mappings inst key).1

/-- `list(map(self.getValueOrDefault, keys))`: sequential resolution threading
the instance state, since each call may cache a default on the instance. -/
def mapGVD (mappings : List (String × Field)) : List String → Inst → List Value × Inst
  | [], inst => ([], inst)
  | k :: ks, inst =>
    let r := getValueOrDefault mappings inst k
    let rest := mapGVD mappings ks r.2
    (r.1 :: rest.1, rest.2)

/-- orm.py `Model.save` argument construction (lines 265-266): default-resolved
non-key field values in declaration order, then the primary key value. -/
def saveArgs (s : Schema) (inst : Inst) : List Value × Inst :=
  let r := mapGVD s.mappings s.fields inst
  let p := getValueOrDefault s.mappings r.2 s.primaryKey
  (r.1 ++ [p.1], p.2)

/-- orm.py `Model.update` argument construction (lines 277-278): currently-set
values (`getValue`, no default fallback) for every non-key field in
declaration order, then the primary key value. -/
def updateArgs (s : Schema) (inst : Inst) : List Value :=
  s.fields.map (getValue inst) ++ [getValue inst s.primaryKey]

/-- orm.py `Model.remove` argument construction (line 287). -/
def removeArgs (s : Schema) (inst : Inst) : List Value :=
  [getValue inst s.primaryKey]

/- ===================== orm.py : execute ===================== -/

/-- A database driver error (anything `cur.execute`, `cursor`, `close` or
`commit` may raise). -/
structure Err where
  msg : String
  deriving DecidableEq

/-- Operations performed on the pooled connection, in order. -/
inductive DbAction where
  | begin
  | execSql (sql : String) (args : List Value)
  | commit
  | rollback
  deriving DecidableEq

/-- The driver's behaviour during one `execute` call: whether each fallible
step succeeds, and the affected-row count reported by the cursor. `begin` and
`rollback` are modelled as always succeeding. -/
structure ConnBehavior where
  cursorRes : Except Err Unit
  execRes : Except Err Nat
  closeRes : Except Err Unit
  commitRes : Except Err Unit

/-- orm.py `execute` (lines 60-80): optional `begin`, then the try block
(cursor, execute with `?` translated to `%s`, read rowcount, close, optional
commit); on any error in the try block, rollback when not autocommitting and
re-raise the original error. Returns the result together with the trace of
attempted connection actions. -/
def execute (sql : String) (args : List Value) (autocommit : Bool) (b : ConnBehavior) :
    Except Err Nat × List DbAction :=
  let pre : List DbAction := if autocommit then [] else [.begin]
  let rb : List DbAction := if autocommit then [] else [.rollback]
  match b.cursorRes with
  | .error e => (.error e, pre ++ rb)
  | .ok _ =>
    let act := DbAction.execSql (sql.replace "?" "%s") args
    match b.execRes with
    | .error e => (.error e, pre ++ [act] ++ rb)
    | .ok affected =>
      match b.closeRes with
      | .error e => (.error e, pre ++ [act] ++ rb)
      | .ok _ =>
        if autocommit then (.ok affected, pre ++ [act])
        else
          match b.commitRes with
          | .error e => (.error e, pre ++ [act, .commit] ++ rb)
          | .ok _ => (.ok affected, pre ++ [act, .commit])

/-- The first error raised inside the try block of a non-autocommit `execute`
run, in program order (cursor, execute, close, commit). -/
def firstFailure (b : ConnBehavior) : Option Err :=
  match b.cursorRes with
  | .error e => some e
  | .ok _ =>
    match b.execRes with
    | .error e => some e
    | .ok _ =>
      match b.closeRes with
      | .error e => some e
      | .ok _ =>
        match b.commitRes with
        | .error e => some e
        | .ok _ => none

/-- The affected-row count the cursor reports (0 if the execute step failed;
only consulted when it succeeded). -/
def rowcountOf (b : ConnBehavior) : Nat :=
  match b.execRes with
  | .ok n => n
  | .error _ => 0

/-- orm.py `Model.save` (lines 261-272): build args, `execute` the insert
template with default `autocommit=True`; a rowcount other than 1 is only
logged (`logging.warn`). Returns the outcome and the warnings logged. -/
def Model_save (s : Schema) (inst : Inst) (b : ConnBehavior) : Except Err Unit × List String :=
  match (execute s.insert (saveArgs s inst).1 true b).1 with
  | .error e => (.error e, [])
  | .ok rows =>
    (.ok (), if rows = 1 then []
      else ["failed to insert record: affected rows: " ++ toString rows])

/-- orm.py `Model.update` (lines 274-283). -/
def Model_update (s : Schema) (inst : Inst) (b : ConnBehavior) : Except Err Unit × List String :=
  match (execute s.update (updateArgs s inst) true b).1 with
  | .error e => (.error e, [])
  | .ok rows =>
    (.ok (), if rows = 1 then []
      else ["failed to update by primary key: affected rows: " ++ toString rows])

/-- orm.py `Model.remove` (lines 285-292). -/
def Model_remove (s : Schema) (inst : Inst) (b : ConnBehavior) : Except Err Unit × List String :=
  match (execute s.delete (removeArgs s inst) true b).1 with
  | .error e => (.error e, [])
  | .ok rows =>
    (.ok (), if rows = 1 then []
      else ["failed to remove by primary key: affected rows: " ++ toString rows])

/- ===================== orm.py : Model.findAll ===================== -/

/-- Python repr of a value, as used inside `str()` of a tuple. -/
def pyRepr : Value → String
  | .vNone => "None"
  | .vInt n => toString n
  | .vStr s => "\x27" ++ s ++ "\x27"
  | .vBool b => if b then "True" else "False"
  | .vReq => "<Request>"

/-- Python str of a value (`str(m)` in app.py line 166). -/
def pyStr : Value → String
  | .vStr s => s
  | v => pyRepr v

/-- The shapes a `limit` keyword argument can take: an int (row cap), a tuple,
or some other object (represented by a string, e.g. a str-typed limit), mirroring
the `isinstance` dispatch in `findAll`. -/
inductive LimitV where
  | lInt (n : Int)
  | lTuple (xs : List Value)
  | lStr (s : String)
  deriving DecidableEq

/-- Python `str(limit)` for the error message (tuples stringify their elements
by repr; a one-element tuple carries a trailing comma). -/
def pyStrLimit : LimitV → String
  | .lInt n => toString n
  | .lStr s => s
  | .lTuple xs =>
    "(" ++ pyJoin ", " (xs.map pyRepr) ++ (if xs.length = 1 then ",)" else ")")

/-- The SQL fragments `findAll` accumulates before the limit clause (orm.py
lines 206-217): the select template, then `where <cond>` and `order by <expr>`
when those arguments are truthy. -/
def findAllSqlParts (s : Schema) (whereC : Option String) (orderBy : Option String) :
    List String :=
  [s.select]
    ++ (match whereC with
        | some w => if w = "" then [] else ["where", w]
        | none => [])
    ++ (match orderBy with
        | some o => if o = "" then [] else ["order by", o]
        | none => [])

/-- orm.py `Model.findAll` (lines 205-233) up to the `select` call. The first
component is either `ValueError` (raised before any query executes) or the
(sql, args) pair handed to `select`. The second component is the caller's
`args` list after the call: `findAll` appends the limit values to the very
list object the caller passed (Python lists are mutated in place), and only
builds a fresh `[]` when `args is None` — in which case the caller has no
list and the component is `none`. -/
def findAll (s : Schema) (whereC : Option String) (argsOpt : Option (List Value))
    (orderBy : Option String) (limit : Option LimitV) :
    Except String (String × List Value) × Option (List Value) :=
  let args0 := match argsOpt with
    | none => []
    | some xs => xs
  let parts := findAllSqlParts s whereC orderBy
  match limit with
  | none => (.ok (pyJoin " " parts, args0), argsOpt.map (fun _ => args0))
  | some l =>
    match l with
    | .lInt n =>
      let args1 := args0 ++ [.vInt n]
      (.ok (pyJoin " " (parts ++ ["limit", "?"]), args1), argsOpt.map (fun _ => args1))
    | .lTuple xs =>
      if xs.length = 2 then
        let args1 := args0 ++ xs
        (.ok (pyJoin " " (parts ++ ["limit", "?,?"]), args1), argsOpt.map (fun _ => args1))
      else
        (.error ("Invalid limit value: " ++ pyStrLimit (.lTuple xs)),
          argsOpt.map (fun _ => args0))
    | .lStr str =>
      (.error ("Invalid limit value: " ++ pyStrLimit (.lStr str)),
        argsOpt.map (fun _ => args0))

/- ===================== web_frame.py : signature inspection ===================== -/

/-- The `inspect.Parameter.kind` classification. -/
inductive ParamKind where
  | positional_only
  | positional_or_keyword
  | var_positional
  | keyword_only
  | var_keyword
  deriving DecidableEq

/-- One parameter of a handler signature. `hasDefault = false` corresponds to
`param.default == inspect.Parameter.empty`. -/
structure Param where
  name : String
  kind : ParamKind
  hasDefault : Bool
  deriving DecidableEq

/-- web_frame.py `get_required_kw_args`: keyword-only parameters without a
default, in signature order. -/
def get_required_kw_args (ps : List Param) : List String :=
  (ps.filter (fun p => decide (p.kind = .keyword_only) && !p.hasDefault)).map Param.name

/-- web_frame.py `get_named_kw_args`: all keyword-only parameters. -/
def get_named_kw_args (ps : List Param) : List String :=
  (ps.filter (fun p => decide (p.kind = .keyword_only))).map Param.name

/-- web_frame.py `has_named_kw_args` (source returns `True`/`None`; truthiness
as Bool). -/
def has_named_kw_args (ps : List Param) : Bool :=
  ps.any (fun p => decide (p.kind = .keyword_only))

/-- web_frame.py `has_var_kw_arg`. -/
def has_var_kw_arg (ps : List Param) : Bool :=
  ps.any (fun p => decide (p.kind = .var_keyword))

/-- Loop of web_frame.py `has_request_arg`: scan for a parameter named
`request`; any later parameter that is not var-positional, keyword-only or
var-keyword raises `ValueError`. -/
def has_request_arg_loop (fname : String) : List Param → Bool → Except String Bool
  | [], found => .ok found
  | p :: rest, found =>
    if p.name = "request" then has_request_arg_loop fname rest true
    else if found then
      match p.kind with
      | .var_positional => has_request_arg_loop fname rest found
      | .keyword_only => has_request_arg_loop fname rest found
      | .var_keyword => has_request_arg_loop fname rest found
      | _ =>
        .error ("request parameter must be the last named parameter in function: " ++ fname)
    else has_request_arg_loop fname rest found

/-- web_frame.py `has_request_arg`. -/
def has_request_arg (fname : String) (ps : List Param) : Except String Bool :=
  has_request_arg_loop fname ps false

/-- The handler binding descriptor `RequestHandler.__init__` precomputes. -/
structure RH where
  has_request_arg : Bool
  has_var_kw_arg : Bool
  has_named_kw_args : Bool
  named_kw_args : List String
  required_kw_args : List String
  deriving DecidableEq

/-- web_frame.py `RequestHandler.__init__`: derive the binding descriptor from
the handler signature (propagating the `ValueError` of `has_request_arg`). -/
def mkRequestHandler (fname : String) (ps : List Param) : Except String RH :=
  match has_request_arg fname ps with
  | .error e => .error e
  | .ok hr =>
    .ok { has_request_arg := hr
          has_var_kw_arg := has_var_kw_arg ps
          has_named_kw_args := has_named_kw_args ps
          named_kw_args := get_named_kw_args ps
          required_kw_args := get_required_kw_args ps }

/- ===================== web_frame.py : RequestHandler.__call__ ===================== -/

/-- The inputs of the reconciliation stage of `RequestHandler.__call__`:
`parsedKw` is the keyword mapping extracted from the JSON/form body or the
query string in lines 140-164 (`none` when nothing was extracted, e.g. a GET
with an empty query string), and `matchInfo` the path-placeholder captures. -/
structure WebRequest where
  parsedKw : Option (List (String × Value))
  matchInfo : List (String × Value)

/-- Outcome of the dispatch: the handler is invoked with a keyword mapping, or
the dispatcher raises a `TypeError` while trying to build an
`HTTPBadRequest`. -/
inductive CallOutcome where
  | invoke (kw : List (String × Value))
  | typeErrorBadRequest (attemptedText : String)
  deriving DecidableEq

/-- Models web_frame.py line 200, `web.HTTPBadRequest('Missing argument: %s' %
name)`: the message is passed positionally, but the constructor of aiohttp's
`HTTPException` subclasses is keyword-only (`def __init__(self, *,
headers=None, reason=None, body=None, text=None, content_type=None)`), so the
construction raises `TypeError` instead of producing a 400 response carrying
the message. The intended text is kept as the constructor argument. -/
def httpBadRequestPositional (attemptedText : String) : CallOutcome :=
  .typeErrorBadRequest attemptedText

/-- The keyword mapping `RequestHandler.__call__` reconciles (lines 133-195):
start from the parsed body/query mapping (or from `match_info` when nothing
was parsed); when the handler has no var-keyword parameter but has named
keyword parameters, keep only the named ones (iterating the named list in
order); overlay the path captures (`kw[k] = v`, path value wins); finally
inject the request object when the handler declares a `request` parameter. -/
def reconciledKw (h : RH) (req : WebRequest) : List (String × Value) :=
  let kwOpt : Option (List (String × Value)) :=
    if h.has_var_kw_arg || h.has_named_kw_args || !h.required_kw_args.isEmpty then
      req.parsedKw
    else none
  let kw :=
    match kwOpt with
    | none => req.matchInfo
    | some raw =>
      let base :=
        if !h.has_var_kw_arg && !h.named_kw_args.isEmpty then
          h.named_kw_args.filterMap (fun n => (alookup raw n).map (fun v => (n, v)))
        else raw
      req.matchInfo.foldl (fun acc kv => dictInsert acc kv.1 kv.2) base
  if h.has_request_arg then dictInsert kw "request" .vReq else kw

/-- web_frame.py `RequestHandler.__call__` from the reconciled mapping on:
check the required keyword parameters in order and stop at the first missing
one (line 197-200), otherwise invoke the handler with the mapping. -/
def RequestHandler_call (h : RH) (req : WebRequest) : CallOutcome :=
  let kw := reconciledKw h req
  match h.required_kw_args.find? (fun n => (alookup kw n).isNone) with
  | some n => httpBadRequestPositional ("Missing argument: " ++ n)
  | none => .invoke kw

/- ===================== app.py : response_factory ===================== -/

/-- The kinds of value a handler may return, mirroring the `isinstance` chain
of `response_factory` (app.py lines 123-170): a low-level StreamResponse
(opaque token), raw bytes, a string, a dict, an int, a tuple. -/
inductive RetVal where
  | stream (token : Nat)
  | bytes (body : List Nat)
  | str (s : String)
  | dict (d : List (String × Value))
  | int (n : Int)
  | tuple (xs : List Value)

/-- The wire response `response_factory` produces. `noResponse` is the implicit
Python `None` when no branch matches; `typeErrorResponse` records the
`TypeError` raised by the int branch (see `webResponsePositional`). -/
inductive RFResult where
  | passthrough (token : Nat)
  | octetStream (body : List Nat)
  | redirect (location : String)
  | html (body : String)
  | jsonBody (d : List (String × Value))
  | templated (template : Value) (d : List (String × Value))
  | statusWithText (status : Int) (text : String)
  | plainText (body : String)
  | noResponse
  | typeErrorResponse (positionalArg : Int)
  deriving DecidableEq

/-- Models app.py line 159, `web.Response(r)`: the integer is passed
positionally, but aiohttp's `web.Response` constructor is keyword-only
(`def __init__(self, *, body=None, status=200, reason=None, text=None,
headers=None, content_type=None, charset=None)`), so the call raises
`TypeError` instead of building an empty response with that status. (Contrast
line 166, which correctly writes `web.Response(status=t, text=str(m))`.) -/
def webResponsePositional (n : Int) : RFResult :=
  .typeErrorResponse n

/-- app.py `response_factory` (lines 120-170): the isinstance chain over the
handler's return value. The jinja2 rendering of the template branch is
delegated to the templating collaborator and represented symbolically. -/
def response_factory : RetVal → RFResult
  | .stream t => .passthrough t
  | .bytes b => .octetStream b
  | .str s => if s.startsWith "redirect:" then .redirect (s.drop 9) else .html s
  | .dict d =>
    match alookup d "__template__" with
    | none => .jsonBody d
    | some t => if t = .vNone then .jsonBody d else .templated t d
  | .int n => if 100 ≤ n ∧ n < 600 then webResponsePositional n else .noResponse
  | .tuple xs =>
    match xs with
    | [t, m] =>
      match t with
      | .vInt k =>
        if 100 ≤ k ∧ k < 600 then .statusWithText k (pyStr m)
        else .plainText ("(" ++ pyRepr t ++ ", " ++ pyRepr m ++ ")")
      | _ => .plainText ("(" ++ pyRepr t ++ ", " ++ pyRepr m ++ ")")
    | _ => .noResponse

/- ===================== derived notions and concrete examples ===================== -/

/-- The declared attributes carrying the primary-key flag, in declaration
order. -/
def pkEntries (attrs : List (String × Field)) : List (String × Field) :=
  attrs.filter (fun kv => kv.2.primary_key)

/-- The names of the declared non-key fields, in declaration order. -/
def nonPkKeys (attrs : List (String × Field)) : List String :=
  (attrs.filter (fun kv => !kv.2.primary_key)).map Prod.fst

/-- A concrete entity declaration in the style of the repository's `User`
model: a string primary key, a defaulted name and an email. -/
def userDecl : ClassDecl :=
  { name := "User"
    tableAttr := some "users"
    attrs := [("id", StringField (some "id") true none),
              ("name", StringField none false (some (.vStr "anon"))),
              ("email", StringField none false none)] }

/-- The schema `ModelMetaclass_new` derives for `userDecl`. -/
def userSchema : Schema := mkSchema "users" "id" ["name", "email"] userDecl.attrs

/-- A concrete instance with only `email` set: `id` and `name` are unset. -/
def uInst : Inst := [("email", .vStr "e@example.com")]

/-- A declaration with two primary-key fields. -/
def twoPkDecl : ClassDecl :=
  { name := "Bad"
    tableAttr := none
    attrs := [("a", IntegerField none true (some (.vInt 0))),
              ("b", IntegerField none true (some (.vInt 0)))] }

/-- A declaration with no primary-key field. -/
def noPkDecl : ClassDecl :=
  { name := "Bad2"
    tableAttr := none
    attrs := [("a", IntegerField none false (some (.vInt 0)))] }

/-- A driver behaviour in which every step succeeds and one row is affected. -/
def okBehavior (rows : Nat) : ConnBehavior :=
  { cursorRes := .ok (), execRes := .ok rows, closeRes := .ok (), commitRes := .ok () }

/-- A driver behaviour in which the execute step itself fails. -/
def failBehavior : ConnBehavior :=
  { cursorRes := .ok (), execRes := .error ⟨"Duplicate entry"⟩, closeRes := .ok ()
    commitRes := .ok () }

/-- The signature of a handler declaring exactly two required keyword-only
parameters `a` and `b` (the shape of the repository's API handlers) and no
request-context or variadic parameter. -/
def sigAB : List Param :=
  [{ name := "a", kind := .keyword_only, hasDefault := false },
   { name := "b", kind := .keyword_only, hasDefault := false }]

/-- The binding descriptor `RequestHandler.__init__` derives for `sigAB`. -/
def rhAB : RH :=
  { has_request_arg := false, has_var_kw_arg := false, has_named_kw_args := true
    named_kw_args := ["a", "b"], required_kw_args := ["a", "b"] }

/- ===================== helper lemmas ===================== -/

theorem pyJoin_append_single (sep a : String) (l : List String) (h : l ≠ []) :
    pyJoin sep (l ++ [a]) = pyJoin sep l ++ sep ++ a := by
  induction l with
  | nil => cases h rfl
  | cons x xs ih =>
    cases xs with
    | nil => simp [pyJoin]
    | cons y ys =>
      have hih := ih (by simp)
      simp only [List.cons_append, List.append_eq, pyJoin] at hih ⊢
      rw [hih]
      simp [String.append_assoc]

theorem alookup_dictInsert {α : Type} (m : List (String × α)) (k k' : String) (v : α) :
    alookup (dictInsert m k v) k' = if k = k' then some v else alookup m k' := by
  induction m with
  | nil => simp [dictInsert, alookup]
  | cons kv rest ih =>
    obtain ⟨k0, v0⟩ := kv
    by_cases h0 : k0 = k
    · subst h0
      by_cases h1 : k0 = k' <;> simp [dictInsert, alookup, h1]
    · by_cases h1 : k0 = k'
      · subst h1
        have : ¬ k = k0 := fun he => h0 he.symm
        simp [dictInsert, alookup, h0, this]
      · simp [dictInsert, alookup, h0, h1, ih]

theorem scanFields_some (attrs : List (String × Field)) (p : String) (fs : List String)
    (hp : p ≠ "") :
    scanFields attrs (some p) fs =
      match pkEntries attrs with
      | [] => .ok (some p, fs ++ nonPkKeys attrs)
      | kv :: _ => .error ("Duplicate primary key for field: " ++ kv.1) := by
  induction attrs generalizing fs with
  | nil => simp [scanFields, pkEntries, nonPkKeys]
  | cons kv rest ih =>
    obtain ⟨k, v⟩ := kv
    cases hpk : v.primary_key with
    | true =>
      have ht : pkTruthy (some p) = true := by simp [pkTruthy, hp]
      simp [scanFields, hpk, ht, pkEntries, List.filter_cons]
    | false =>
      have hstep : scanFields ((k, v) :: rest) (some p) fs
          = scanFields rest (some p) (fs ++ [k]) := by
        simp [scanFields, hpk]
      have h1 : pkEntries ((k, v) :: rest) = pkEntries rest := by
        simp [pkEntries, List.filter_cons, hpk]
      have h2 : nonPkKeys ((k, v) :: rest) = k :: nonPkKeys rest := by
        simp [nonPkKeys, List.filter_cons, hpk]
      rw [hstep, ih (fs ++ [k]), h1, h2]
      cases pkEntries rest with
      | nil => simp
      | cons a t => simp

theorem scanFields_none (attrs : List (String × Field)) (fs : List String)
    (hne : ∀ kv ∈ attrs, kv.1 ≠ "") :
    scanFields attrs none fs =
      match pkEntries attrs with
      | [] => .ok (none, fs ++ nonPkKeys attrs)
      | [kv] => .ok (some kv.1, fs ++ nonPkKeys attrs)
      | _ :: kv2 :: _ => .error ("Duplicate primary key for field: " ++ kv2.1) := by
  induction attrs generalizing fs with
  | nil => simp [scanFields, pkEntries, nonPkKeys]
  | cons kv rest ih =>
    obtain ⟨k, v⟩ := kv
    have hk : k ≠ "" := hne (k, v) (List.mem_cons_self _ _)
    have hner : ∀ kv ∈ rest, kv.1 ≠ "" := fun kv hm => hne kv (List.mem_cons_of_mem _ hm)
    cases hpk : v.primary_key with
    | true =>
      have hstep : scanFields ((k, v) :: rest) none fs = scanFields rest (some k) fs := by
        simp [scanFields, hpk, pkTruthy]
      have h1 : pkEntries ((k, v) :: rest) = (k, v) :: pkEntries rest := by
        simp [pkEntries, List.filter_cons, hpk]
      have h2 : nonPkKeys ((k, v) :: rest) = nonPkKeys rest := by
        simp [nonPkKeys, List.filter_cons, hpk]
      rw [hstep, scanFields_some rest k fs hk, h1, h2]
      cases pkEntries rest with
      | nil => simp
      | cons a t => simp
    | false =>
      have hstep : scanFields ((k, v) :: rest) none fs
          = scanFields rest none (fs ++ [k]) := by
        simp [scanFields, hpk]
      have h1 : pkEntries ((k, v) :: rest) = pkEntries rest := by
        simp [pkEntries, List.filter_cons, hpk]
      have h2 : nonPkKeys ((k, v) :: rest) = k :: nonPkKeys rest := by
        simp [nonPkKeys, List.filter_cons, hpk]
      rw [hstep, ih (fs ++ [k]) hner, h1, h2]
      cases pkEntries rest with
      | nil => simp
      | cons a t => cases t with
        | nil => simp
        | cons b t2 => simp

theorem ModelMetaclass_new_char (decl : ClassDecl)
    (hne : ∀ kv ∈ decl.attrs, kv.1 ≠ "") :
    ModelMetaclass_new decl =
      match pkEntries decl.attrs with
      | [] => .error "Priamry key not found."
      | [kv] => .ok (mkSchema (pyOr decl.tableAttr decl.name) kv.1
          (nonPkKeys decl.attrs) decl.attrs)
      | _ :: kv2 :: _ => .error ("Duplicate primary key for field: " ++ kv2.1) := by
  unfold ModelMetaclass_new
  rw [scanFields_none decl.attrs [] hne]
  cases hpe : pkEntries decl.attrs with
  | nil => simp
  | cons kv t =>
    cases t with
    | nil =>
      have hkv : kv ∈ decl.attrs := by
        have hm : kv ∈ pkEntries decl.attrs := by rw [hpe]; exact List.mem_singleton.mpr rfl
        exact List.mem_of_mem_filter hm
      have hk : kv.1 ≠ "" := hne kv hkv
      simp [hk]
    | cons kv2 t2 => simp

/- ===================== C1 ===================== -/

/-- C1: schema derivation succeeds if and only if exactly one declared field
carries the primary-key flag; with zero or several primary keys it fails
deterministically with the fatal `RuntimeError` of `ModelMetaclass.__new__`
(raised at class-definition time, i.e. before the application can run), and
with exactly one it produces the table name, the primary key, the non-key
field list in declaration order and the four statement templates of
`mkSchema`. The hypothesis that attribute names are nonempty reflects that
Python identifiers are never the empty string. -/
theorem schema_derivation_iff (decl : ClassDecl)
    (hne : ∀ kv ∈ decl.attrs, kv.1 ≠ "") :
    ((∃ s, ModelMetaclass_new decl = .ok s) ↔ (pkEntries decl.attrs).length = 1) ∧
    (∀ s, ModelMetaclass_new decl = .ok s →
      (pkEntries decl.attrs).map Prod.fst = [s.primaryKey] ∧
      s.fields = nonPkKeys decl.attrs ∧
      s = mkSchema (pyOr decl.tableAttr decl.name) s.primaryKey
        (nonPkKeys decl.attrs) decl.attrs) := by
  have hc := ModelMetaclass_new_char decl hne
  cases hpe : pkEntries decl.attrs with
  | nil =>
    rw [hpe] at hc
    refine ⟨⟨?_, ?_⟩, ?_⟩
    · rintro ⟨s, hs⟩; rw [hc] at hs; cases hs
    · intro h; simp at h
    · intro s hs; rw [hc] at hs; cases hs
  | cons kv t =>
    cases t with
    | nil =>
      rw [hpe] at hc
      refine ⟨⟨?_, ?_⟩, ?_⟩
      · intro _; rfl
      · intro _; exact ⟨_, hc⟩
      · intro s hs
        rw [hc] at hs
        obtain rfl := Except.ok.inj hs
        exact ⟨rfl, rfl, rfl⟩
    | cons kv2 t2 =>
      rw [hpe] at hc
      refine ⟨⟨?_, ?_⟩, ?_⟩
      · rintro ⟨s, hs⟩; rw [hc] at hs; cases hs
      · intro h; simp at h
      · intro s hs; rw [hc] at hs; cases hs

/-- Witness for C1: the `User`-style declaration has exactly one primary key
and derivation succeeds; the iff is applied at that concrete declaration. -/
theorem schema_derivation_iff_witness :
    ((∃ s, ModelMetaclass_new userDecl = .ok s) ↔ (pkEntries userDecl.attrs).length = 1) ∧
    (pkEntries userDecl.attrs).length = 1 :=
  ⟨(schema_derivation_iff userDecl (by decide)).1, by decide⟩

/- ===================== instance-state lemmas ===================== -/

theorem getValue_congr (i1 i2 : Inst) (k : String)
    (h : alookup i1 k = alookup i2 k) : getValue i1 k = getValue i2 k := by
  unfold getValue; rw [h]

theorem gvd_snd_alookup (mp : List (String × Field)) (inst : Inst) (k k' : String)
    (h : k ≠ k') :
    alookup (getValueOrDefault mp inst k).2 k' = alookup inst k' := by
  by_cases hv : getValue inst k = .vNone
  · rcases halk : alookup mp k with _ | fld
    · simp [getValueOrDefault, hv, halk]
    · rcases hdf : fld.default with _ | d
      · simp [getValueOrDefault, hv, halk, hdf]
      · simp [getValueOrDefault, hv, halk, hdf, alookup_dictInsert, h]
  · simp [getValueOrDefault, hv]

theorem resolveDefault_congr (mp : List (String × Field)) (i1 i2 : Inst) (k : String)
    (h : alookup i1 k = alookup i2 k) :
    resolveDefault mp i1 k = resolveDefault mp i2 k := by
  have hg : getValue i1 k = getValue i2 k := getValue_congr i1 i2 k h
  by_cases hv : getValue i2 k = .vNone
  · rcases halk : alookup mp k with _ | fld
    · simp [resolveDefault, getValueOrDefault, hg, hv, halk]
    · rcases hdf : fld.default with _ | d <;>
        simp [resolveDefault, getValueOrDefault, hg, hv, halk, hdf]
  · simp [resolveDefault, getValueOrDefault, hg, hv]

theorem mapGVD_snd_alookup (mp : List (String × Field)) (ks : List String) (inst : Inst)
    (k' : String) (h : k' ∉ ks) :
    alookup (mapGVD mp ks inst).2 k' = alookup inst k' := by
  induction ks generalizing inst with
  | nil => rfl
  | cons k ks ih =>
    have hk : k ≠ k' := fun he => h (he ▸ List.mem_cons_self k ks)
    have h2 : k' ∉ ks := fun hm => h (List.mem_cons_of_mem _ hm)
    simp only [mapGVD]
    rw [ih _ h2, gvd_snd_alookup _ _ _ _ hk]

theorem mapGVD_fst (mp : List (String × Field)) (ks : List String) (inst : Inst)
    (h : ks.Nodup) :
    (mapGVD mp ks inst).1 = ks.map (resolveDefault mp inst) := by
  induction ks generalizing inst with
  | nil => rfl
  | cons k ks ih =>
    obtain ⟨hk, hnd⟩ := List.nodup_cons.mp h
    simp only [mapGVD, List.map_cons]
    congr 1
    rw [ih _ hnd]
    apply List.map_congr_left
    intro x hx
    exact resolveDefault_congr _ _ _ _
      (gvd_snd_alookup mp inst k x (fun he => hk (he ▸ hx)))

theorem saveArgs_fst (s : Schema) (inst : Inst)
    (h : (s.fields ++ [s.primaryKey]).Nodup) :
    (saveArgs s inst).1 = (s.fields ++ [s.primaryKey]).map (resolveDefault s.mappings inst) := by
  rw [List.nodup_append] at h
  obtain ⟨h1, _, hdisj⟩ := h
  have hpk : s.primaryKey ∉ s.fields := fun hm => (hdisj hm) (List.mem_singleton.mpr rfl)
  have e1 := mapGVD_fst s.mappings s.fields inst h1
  have e2 : resolveDefault s.mappings (mapGVD s.mappings s.fields inst).2 s.primaryKey
      = resolveDefault s.mappings inst s.primaryKey :=
    resolveDefault_congr _ _ _ _ (mapGVD_snd_alookup _ _ _ _ hpk)
  simp only [saveArgs, List.map_append, List.map_cons, List.map_nil]
  rw [e1, ← e2]
  rfl

/- ===================== key-uniqueness lemmas ===================== -/

theorem keys_nodup_inj {α : Type} (l : List (String × α))
    (h : (l.map Prod.fst).Nodup) {k : String} {a b : α}
    (ha : (k, a) ∈ l) (hb : (k, b) ∈ l) : a = b := by
  induction l with
  | nil => cases ha
  | cons kv rest ih =>
    rw [List.map_cons, List.nodup_cons] at h
    rcases List.mem_cons.mp ha with h1 | h1
    · rcases List.mem_cons.mp hb with h2 | h2
      · have h3 : (k, a) = (k, b) := h1.trans h2.symm
        exact (Prod.ext_iff.mp h3).2
      · exfalso
        apply h.1
        have h4 : kv.1 = k := by rw [← h1]
        rw [h4]
        exact List.mem_map_of_mem Prod.fst h2
    · rcases List.mem_cons.mp hb with h2 | h2
      · exfalso
        apply h.1
        have h4 : kv.1 = k := by rw [← h2]
        rw [h4]
        exact List.mem_map_of_mem Prod.fst h1
      · exact ih h.2 h1 h2

theorem ModelMetaclass_new_ok (decl : ClassDecl) (s : Schema)
    (hne : ∀ kv ∈ decl.attrs, kv.1 ≠ "")
    (hd : ModelMetaclass_new decl = .ok s) :
    ∃ kv, pkEntries decl.attrs = [kv] ∧
      s = mkSchema (pyOr decl.tableAttr decl.name) kv.1 (nonPkKeys decl.attrs) decl.attrs := by
  have hc := ModelMetaclass_new_char decl hne
  cases hpe : pkEntries decl.attrs with
  | nil => rw [hpe] at hc; rw [hc] at hd; cases hd
  | cons kv t =>
    cases t with
    | nil => rw [hpe] at hc; rw [hc] at hd; exact ⟨kv, rfl, (Except.ok.inj hd).symm⟩
    | cons kv2 t2 => rw [hpe] at hc; rw [hc] at hd; cases hd

theorem derived_fields_nodup (decl : ClassDecl) (s : Schema)
    (hne : ∀ kv ∈ decl.attrs, kv.1 ≠ "")
    (hnd : (decl.attrs.map Prod.fst).Nodup)
    (hd : ModelMetaclass_new decl = .ok s) :
    (s.fields ++ [s.primaryKey]).Nodup := by
  obtain ⟨kv, hpe, rfl⟩ := ModelMetaclass_new_ok decl s hne hd
  have hfsub : (nonPkKeys decl.attrs).Sublist (decl.attrs.map Prod.fst) :=
    (List.filter_sublist decl.attrs).map Prod.fst
  have hfnd : (nonPkKeys decl.attrs).Nodup := hnd.sublist hfsub
  have hkv_pk : kv ∈ pkEntries decl.attrs := by rw [hpe]; exact List.mem_singleton.mpr rfl
  have hkv_mem : kv ∈ decl.attrs := List.mem_of_mem_filter hkv_pk
  have hkv_flag : kv.2.primary_key = true := by
    have := List.of_mem_filter hkv_pk
    simpa using this
  have hpk_not : kv.1 ∉ nonPkKeys decl.attrs := by
    intro hm
    obtain ⟨kv2, hm2, he⟩ := List.mem_map.mp hm
    have h2mem : kv2 ∈ decl.attrs := List.mem_of_mem_filter hm2
    have h2flag : kv2.2.primary_key = false := by
      have := List.of_mem_filter hm2
      simpa using this
    have hpair1 : (kv.1, kv.2) ∈ decl.attrs := by simpa using hkv_mem
    have hpair2 : (kv.1, kv2.2) ∈ decl.attrs := by
      rw [← he]; simpa using h2mem
    have heq : kv.2 = kv2.2 := keys_nodup_inj decl.attrs hnd hpair1 hpair2
    rw [heq, h2flag] at hkv_flag
    cases hkv_flag
  refine List.Nodup.append hfnd (List.nodup_singleton _) ?_
  intro a ha hb
  rw [List.mem_singleton.mp hb] at ha
  exact hpk_not ha

theorem insert_template_shape (t pk : String) (fields : List String)
    (mp : List (String × Field)) (hf : fields ≠ []) :
    (mkSchema t pk fields mp).insert =
      "insert into `" ++ t ++ "` ("
        ++ pyJoin ", " ((fields ++ [pk]).map escapeField)
        ++ ") values (" ++ create_args_string (fields ++ [pk]).length ++ ")" := by
  have hmap : (fields ++ [pk]).map escapeField
      = fields.map escapeField ++ [escapeField pk] := by simp
  have hlen : (fields ++ [pk]).length = fields.length + 1 := by simp
  have hmne : fields.map escapeField ≠ [] := by simpa using hf
  rw [hmap, hlen, pyJoin_append_single _ _ _ hmne]
  simp only [mkSchema, escapeField]
  simp only [String.append_assoc]
  rw [show ∀ X : String, (", " : String) ++ ("`" ++ X) = ", `" ++ X from
      fun X => by rw [← String.append_assoc]; rfl]
  rw [show ∀ X : String, ("`" : String) ++ (") values (" ++ X) = "`) values (" ++ X from
      fun X => by rw [← String.append_assoc]; rfl]

/- ===================== C2 ===================== -/

/-- C2: on a successfully derived schema, the insert template lists the
non-key columns in declaration order followed by the primary-key column, with
exactly one positional placeholder per listed column, and the argument list
`save()` binds is the default-resolved value of exactly those columns in
exactly that order (so the i-th placeholder is bound to the i-th listed
column). The Nodup hypothesis records that class attribute names are dict
keys and hence distinct; `hf` excludes the degenerate entity with no non-key
columns. -/
theorem insert_save_binding (decl : ClassDecl) (s : Schema) (inst : Inst)
    (hne : ∀ kv ∈ decl.attrs, kv.1 ≠ "")
    (hnd : (decl.attrs.map Prod.fst).Nodup)
    (hd : ModelMetaclass_new decl = .ok s)
    (hf : s.fields ≠ []) :
    s.insert =
      "insert into `" ++ s.table ++ "` ("
        ++ pyJoin ", " ((s.fields ++ [s.primaryKey]).map escapeField)
        ++ ") values (" ++ create_args_string (s.fields ++ [s.primaryKey]).length ++ ")" ∧
    (saveArgs s inst).1
      = (s.fields ++ [s.primaryKey]).map (resolveDefault s.mappings inst) := by
  have hnodup := derived_fields_nodup decl s hne hnd hd
  have hsave := saveArgs_fst s inst hnodup
  obtain ⟨kv, hpe, rfl⟩ := ModelMetaclass_new_ok decl s hne hd
  exact ⟨insert_template_shape _ _ _ _ hf, hsave⟩

/-- Witness for C2 at the concrete `User` declaration and an instance with
only `email` set: the unset `name` resolves to its default, the unset primary
key to `None`, in template order. -/
theorem insert_save_binding_witness :
    userSchema.insert =
      "insert into `" ++ userSchema.table ++ "` ("
        ++ pyJoin ", " ((userSchema.fields ++ [userSchema.primaryKey]).map escapeField)
        ++ ") values ("
        ++ create_args_string (userSchema.fields ++ [userSchema.primaryKey]).length ++ ")" ∧
    (saveArgs userSchema uInst).1
      = (userSchema.fields ++ [userSchema.primaryKey]).map
          (resolveDefault userSchema.mappings uInst) :=
  insert_save_binding userDecl userSchema uInst (by decide) (by decide) rfl (by decide)

/- ===================== C3 ===================== -/

/-- C3: `update()` binds the currently-set values (via `getValue`, which never
consults field defaults) of all non-key fields in declaration order followed
by the primary-key value; for a non-key field that was never set on the
instance but declares a default `d`, the value bound is `None`, not `d` — in
contrast to the default-fallback resolver `save()` uses, which would yield
`d`. (The hypothesis `d ≠ vNone` is vacuous for real declarations: a Python
field whose `default` is `None` has no declared default at all.) -/
theorem update_no_default_injection (decl : ClassDecl) (s : Schema) (inst : Inst)
    (f : String) (fld : Field) (d : Value)
    (hne : ∀ kv ∈ decl.attrs, kv.1 ≠ "")
    (hd : ModelMetaclass_new decl = .ok s)
    (hf : f ∈ s.fields)
    (hunset : alookup inst f = none)
    (hm : alookup s.mappings f = some fld)
    (hdef : fld.default = some d)
    (hdn : d ≠ .vNone) :
    updateArgs s inst = (s.fields ++ [s.primaryKey]).map (getValue inst) ∧
    getValue inst f = .vNone ∧
    getValue inst f ≠ d ∧
    resolveDefault s.mappings inst f = d := by
  have hgv : getValue inst f = .vNone := by simp [getValue, hunset]
  refine ⟨by simp [updateArgs], hgv, by rw [hgv]; exact fun he => hdn he.symm, ?_⟩
  simp [resolveDefault, getValueOrDefault, hgv, hm, hdef]

/-- Witness for C3: on the `User` instance with unset `name` (default
`"anon"`), `update()` binds `None` for `name`, never `"anon"`. -/
theorem update_no_default_injection_witness :
    updateArgs userSchema uInst
      = (userSchema.fields ++ [userSchema.primaryKey]).map (getValue uInst) ∧
    getValue uInst "name" = .vNone ∧
    getValue uInst "name" ≠ .vStr "anon" ∧
    resolveDefault userSchema.mappings uInst "name" = .vStr "anon" :=
  update_no_default_injection userDecl userSchema uInst "name"
    (StringField none false (some (.vStr "anon"))) (.vStr "anon")
    (by decide) rfl (by decide) rfl rfl rfl (by decide)

/- ===================== C9 ===================== -/

/-- C9: the derived update template sets every non-key column unconditionally
(one `=?` clause per declared non-key field), `update()` binds a value for
every listed column — fields.length + 1 values in all — and a field never set
on the instance is bound as `None`, so its column is overwritten with NULL
rather than left unchanged. -/
theorem update_binds_every_column (decl : ClassDecl) (s : Schema) (inst : Inst)
    (hne : ∀ kv ∈ decl.attrs, kv.1 ≠ "")
    (hd : ModelMetaclass_new decl = .ok s) :
    s.update = "update `" ++ s.table ++ "` set "
      ++ pyJoin ", " (s.fields.map (fun f => "`" ++ colName s.mappings f ++ "`=?"))
      ++ " where `" ++ s.primaryKey ++ "`=?" ∧
    updateArgs s inst = (s.fields ++ [s.primaryKey]).map (getValue inst) ∧
    (updateArgs s inst).length = s.fields.length + 1 ∧
    (∀ f ∈ s.fields, alookup inst f = none → getValue inst f = .vNone) := by
  obtain ⟨kv, hpe, rfl⟩ := ModelMetaclass_new_ok decl s hne hd
  refine ⟨rfl, by simp [updateArgs], by simp [updateArgs], ?_⟩
  intro f _ hun
  simp [getValue, hun]

/-- Witness for C9: on the `User` instance with only `email` set, `update()`
binds three values — `None` for the unset `name`, the stored email, `None`
for the unset primary key. -/
theorem update_binds_every_column_witness :
    updateArgs userSchema uInst
      = (userSchema.fields ++ [userSchema.primaryKey]).map (getValue uInst) ∧
    (updateArgs userSchema uInst).length = userSchema.fields.length + 1 ∧
    updateArgs userSchema uInst = [.vNone, .vStr "e@example.com", .vNone] :=
  ⟨(update_binds_every_column userDecl userSchema uInst (by decide) rfl).2.1,
   (update_binds_every_column userDecl userSchema uInst (by decide) rfl).2.2.1,
   by decide⟩

/- ===================== C4 ===================== -/

/-- C4: with autocommit off, `execute` wraps the statement in an explicit
transaction — the trace starts with `begin`; when no step fails it is exactly
begin, execute, commit and the affected-row count is returned; when any step
fails, the first error is re-raised unchanged (never swallowed) and the last
action on the connection is the rollback, performed before the error
propagates to the caller. -/
theorem execute_transactional (sql : String) (args : List Value) (b : ConnBehavior) :
    (execute sql args false b).2.head? = some .begin ∧
    (firstFailure b = none →
      (execute sql args false b).1 = .ok (rowcountOf b) ∧
      (execute sql args false b).2
        = [.begin, .execSql (sql.replace "?" "%s") args, .commit]) ∧
    (∀ e, firstFailure b = some e →
      (execute sql args false b).1 = .error e ∧
      (execute sql args false b).2.getLast? = some .rollback) := by
  obtain ⟨cr, er, clr, cmr⟩ := b
  cases cr <;> cases er <;> cases clr <;> cases cmr <;>
    refine ⟨by simp [execute], fun hff => ?_, fun e hff => ?_⟩ <;>
    simp_all [execute, firstFailure, rowcountOf]

/-- Witness for C4: a failing insert under an explicit transaction returns the
driver's original error and the trace ends in a rollback. -/
theorem execute_transactional_witness :
    (execute "insert into `users` (`name`, `id`) values (?, ?)" [.vStr "x", .vStr "1"]
        false failBehavior).1 = .error ⟨"Duplicate entry"⟩ ∧
    (execute "insert into `users` (`name`, `id`) values (?, ?)" [.vStr "x", .vStr "1"]
        false failBehavior).2.getLast? = some .rollback :=
  (execute_transactional _ _ failBehavior).2.2 ⟨"Duplicate entry"⟩ rfl

/- ===================== C5 ===================== -/

/-- C5: whenever the underlying `execute` returns an affected-row count —
whatever the count — `save()`, `update()` and `remove()` return normally; a
count different from 1 produces only a log warning, never an exception. -/
theorem persistence_soft_failure (s : Schema) (inst : Inst) (b : ConnBehavior) (rows : Nat)
    (h1 : b.cursorRes = .ok ()) (h2 : b.execRes = .ok rows) (h3 : b.closeRes = .ok ()) :
    (execute s.insert (saveArgs s inst).1 true b).1 = .ok rows ∧
    Model_save s inst b = (.ok (), if rows = 1 then []
      else ["failed to insert record: affected rows: " ++ toString rows]) ∧
    Model_update s inst b = (.ok (), if rows = 1 then []
      else ["failed to update by primary key: affected rows: " ++ toString rows]) ∧
    Model_remove s inst b = (.ok (), if rows = 1 then []
      else ["failed to remove by primary key: affected rows: " ++ toString rows]) := by
  obtain ⟨cr, er, clr, cmr⟩ := b
  cases h1; cases h2; cases h3
  simp [execute, Model_save, Model_update, Model_remove]

/-- Witness for C5: an insert affecting 0 rows still returns normally and only
logs the warning. -/
theorem persistence_soft_failure_witness :
    Model_save userSchema uInst (okBehavior 0)
      = (.ok (), ["failed to insert record: affected rows: 0"]) :=
  ((persistence_soft_failure userSchema uInst (okBehavior 0) 0 rfl rfl rfl).2.1).trans rfl

/- ===================== C8 ===================== -/

/-- C8: an int limit appends `limit ?` and one bound value (the row cap); a
2-tuple limit appends `limit ?,?` and both values (offset, count); a limit of
any other shape — a non-int non-tuple, or a tuple whose length is not 2 —
raises `ValueError` before any query is issued (the error component means
`select` is never reached). -/
theorem findAll_limit_shapes (s : Schema) (whereC : Option String)
    (argsOpt : Option (List Value)) (orderBy : Option String) :
    (∀ n : Int, (findAll s whereC argsOpt orderBy (some (.lInt n))).1
      = .ok (pyJoin " " (findAllSqlParts s whereC orderBy ++ ["limit", "?"]),
          (argsOpt.getD []) ++ [.vInt n])) ∧
    (∀ a b : Value, (findAll s whereC argsOpt orderBy (some (.lTuple [a, b]))).1
      = .ok (pyJoin " " (findAllSqlParts s whereC orderBy ++ ["limit", "?,?"]),
          (argsOpt.getD []) ++ [a, b])) ∧
    (∀ l : LimitV, (∀ n, l ≠ .lInt n) → (∀ xs, l = .lTuple xs → xs.length ≠ 2) →
      (findAll s whereC argsOpt orderBy (some l)).1
        = .error ("Invalid limit value: " ++ pyStrLimit l)) := by
  refine ⟨fun n => ?_, fun a b => ?_, fun l h1 h2 => ?_⟩
  · cases argsOpt <;> simp [findAll]
  · cases argsOpt <;> simp [findAll]
  · cases l with
    | lInt n => exact absurd rfl (h1 n)
    | lTuple xs =>
      have hlen : xs.length ≠ 2 := h2 xs rfl
      cases argsOpt <;> simp [findAll, hlen]
    | lStr str => cases argsOpt <;> simp [findAll]

/-- Witness for C8: a string limit raises `ValueError`; an int limit of 5 is
appended as the single bound row cap. -/
theorem findAll_limit_shapes_witness :
    (findAll userSchema none none none (some (.lStr "ten"))).1
      = .error ("Invalid limit value: " ++ pyStrLimit (.lStr "ten")) ∧
    (findAll userSchema none none none (some (.lInt 5))).1
      = .ok (pyJoin " " (findAllSqlParts userSchema none none ++ ["limit", "?"]),
          [.vInt 5]) :=
  ⟨(findAll_limit_shapes userSchema none none none).2.2 (.lStr "ten")
      (fun n h => by cases h) (fun xs h => by cases h),
   (findAll_limit_shapes userSchema none none none).1 5⟩

/- ===================== C10 ===================== -/

/-- C10: when the caller supplies an `args` list and a limit, `findAll`
mutates the caller's list in place — after the call the caller's list holds
its old elements followed by the appended limit values, and that very list is
what the query is executed with; only when `args` is `None` does `findAll`
build a fresh empty list of its own, leaving the caller with nothing to
observe. -/
theorem findAll_args_mutation (s : Schema) (whereC orderBy : Option String)
    (xs : List Value) :
    (∀ n : Int,
      (findAll s whereC (some xs) orderBy (some (.lInt n))).2 = some (xs ++ [.vInt n]) ∧
      (findAll s whereC (some xs) orderBy (some (.lInt n))).1
        = .ok (pyJoin " " (findAllSqlParts s whereC orderBy ++ ["limit", "?"]),
            xs ++ [.vInt n])) ∧
    (∀ a b : Value,
      (findAll s whereC (some xs) orderBy (some (.lTuple [a, b]))).2
        = some (xs ++ [a, b]) ∧
      (findAll s whereC (some xs) orderBy (some (.lTuple [a, b]))).1
        = .ok (pyJoin " " (findAllSqlParts s whereC orderBy ++ ["limit", "?,?"]),
            xs ++ [a, b])) ∧
    (∀ l : LimitV, (findAll s whereC none orderBy (some l)).2 = none) ∧
    (∀ n : Int, (findAll s whereC none orderBy (some (.lInt n))).1
      = .ok (pyJoin " " (findAllSqlParts s whereC orderBy ++ ["limit", "?"]),
          [.vInt n])) := by
  refine ⟨fun n => ⟨?_, ?_⟩, fun a b => ⟨?_, ?_⟩, fun l => ?_, fun n => ?_⟩
  · simp [findAll]
  · simp [findAll]
  · simp [findAll]
  · simp [findAll]
  · cases l <;> simp [findAll] <;> split <;> simp
  · simp [findAll]

/- ===================== C6 ===================== -/

/-- C6 (divergence): the reconciliation logic itself matches the claim — with
all required keys present the handler is invoked with exactly its declared
keyword parameters and extraneous raw keys are dropped — but when a required
parameter is missing the dispatcher does NOT return a client error naming it:
line 200 builds `web.HTTPBadRequest('Missing argument: b')` with a positional
argument, and aiohttp's keyword-only `HTTPException` constructor makes that
raise `TypeError`, so the request fails with a server fault instead of the
named 400 error. The first conjunct checks the descriptor derivation from the
signature; the second evaluates the dispatcher at the failing input; the
third at the all-present input. -/
theorem dispatch_missing_argument_typeerror :
    mkRequestHandler "api_handler" sigAB = .ok rhAB ∧
    RequestHandler_call rhAB ⟨some [("a", .vStr "1")], []⟩
      = .typeErrorBadRequest "Missing argument: b" ∧
    RequestHandler_call rhAB
        ⟨some [("a", .vStr "1"), ("b", .vStr "2"), ("extra", .vInt 3)], []⟩
      = .invoke [("a", .vStr "1"), ("b", .vStr "2")] :=
  ⟨rfl, rfl, rfl⟩

/- ===================== C7 ===================== -/

/-- C7 (divergence): a handler returning the integer 204 does not produce an
empty 204 response: the int branch of `response_factory` calls
`web.Response(r)` with a positional argument, which the keyword-only aiohttp
`Response` constructor rejects with `TypeError`, so no response with status
204 is ever built (the middleware fault surfaces as a 500 instead). -/
theorem response_factory_int_typeerror :
    response_factory (.int 204) = .typeErrorResponse 204 ∧
    response_factory (.int 204) = webResponsePositional 204 :=
  ⟨rfl, rfl⟩

end PureBlog
